import Mathlib

/-!
Shallow embedding of the booking/review core of the `alx_travel_app` listings
application (files `listings/models.py`, `listings/views.py`,
`listings/serializers copy.py`).

Modelling conventions:
- calendar dates are day numbers (`Int`, days since 1970-01-01), so
  `(check_out - check_in).days` becomes `checkOut - checkIn`;
- `Decimal` money values with 2 decimal places are integers in cents
  (`Int`), so `price_per_night * nights` is exact integer arithmetic;
- the aggregate `average_rating` (a SQL `Avg`) is an exact rational `ℚ`;
- the database is a `Store` of lists; Django's `save()` (insert-or-update
  by primary key) replaces the row with the same `id`;
- fallible operations return `Except`: on `Except.error` nothing was
  persisted, the caller's store is untouched.
-/

namespace AlxTravel

/-- Booking status choices (`Booking.STATUS_CHOICES`, models.py 108-114). -/
inductive BookingStatus where
  | PENDING
  | CONFIRMED
  | CANCELLED
  | COMPLETED
  | NO_SHOW
deriving DecidableEq, Repr

/-- The fields of `Listing` (models.py 17-100 plus the `add_to_class`
fields at models.py 360-372) that the booking/review logic reads. -/
structure Listing where
  id : Nat
  ownerId : Nat
  /-- Field `price_per_night`, a 2-decimal-place Decimal, held in cents. -/
  pricePerNightCents : Int
  maxGuests : Nat
  isAvailable : Bool
  /-- Field `average_rating` (added via `Listing.add_to_class`, models.py 360). -/
  averageRating : ℚ
  /-- Field `review_count` (added via `Listing.add_to_class`, models.py 368). -/
  reviewCount : Nat
deriving DecidableEq, Repr

/-- The fields of `Booking` (models.py 107-160). `totalPrice` is `none`
when the Decimal field is unset (`None`). -/
structure Booking where
  id : Nat
  listingId : Nat
  guestId : Nat
  checkIn : Int
  checkOut : Int
  guests : Nat
  totalPrice : Option Int
  status : BookingStatus
  cancelledAt : Option Int
  cancellationReason : Option String
deriving DecidableEq, Repr

/-- The fields of `Review` (models.py 219-298) that the logic reads. -/
structure Review where
  id : Nat
  listingId : Nat
  userId : Nat
  rating : Nat
  stayDate : Option Int
  isPublic : Bool
deriving DecidableEq, Repr

/-- The relational store: one table per model. -/
structure Store where
  listings : List Listing
  bookings : List Booking
  reviews : List Review
deriving DecidableEq, Repr

/-- Row lookup by primary key, `Listing.objects.get(pk=lid)`. -/
def Store.findListing (s : Store) (lid : Nat) : Option Listing :=
  s.listings.find? (fun l => l.id = lid)

/-- Row lookup by primary key, `Booking.objects.get(pk=bid)`. -/
def Store.findBooking (s : Store) (bid : Nat) : Option Booking :=
  s.bookings.find? (fun b => b.id = bid)

/-- Row lookup by primary key, `Review.objects.get(pk=rid)`. -/
def Store.findReview (s : Store) (rid : Nat) : Option Review :=
  s.reviews.find? (fun r => r.id = rid)

/-- The table write of `booking.save()`: insert, or replace the row
with the same primary key. -/
def Store.putBooking (s : Store) (b : Booking) : Store :=
  { s with bookings := b :: s.bookings.filter (fun x => x.id ≠ b.id) }

/-- The table write of `review.save()`. -/
def Store.putReview (s : Store) (r : Review) : Store :=
  { s with reviews := r :: s.reviews.filter (fun x => x.id ≠ r.id) }

/-- Whether a status counts toward availability:
`status__in=['PENDING', 'CONFIRMED']`. -/
def BookingStatus.isActive : BookingStatus → Bool
  | .PENDING => true
  | .CONFIRMED => true
  | _ => false

/-- The overlapping-bookings ORM query shared by `Booking.clean`
(models.py 172-177), `ListingViewSet.available` (views.py 57-62, with no
exclusion) and `BookingSerializer.validate` (serializers copy.py 228-236):
bookings of the listing with status PENDING or CONFIRMED, excluding the
given primary key, whose `check_out > checkIn` and `check_in < checkOut`. -/
def hasOverlappingBooking (s : Store) (lid : Nat) (checkIn checkOut : Int)
    (excludePk : Option Nat) : Bool :=
  s.bookings.any fun b =>
    decide (b.listingId = lid ∧ b.status.isActive = true ∧
      b.checkOut > checkIn ∧ b.checkIn < checkOut ∧
      (∀ pk ∈ excludePk, b.id ≠ pk))

/-- Endpoint `ListingViewSet.available` (views.py 25-69): the query-parameter and
404 handling aside, reject `check_in >= check_out`, otherwise report
whether no active booking overlaps. -/
def availableEndpoint (s : Store) (lid : Nat) (checkIn checkOut : Int) :
    Except String Bool :=
  match s.findListing lid with
  | none => .error "Not found"
  | some _ =>
    if checkIn ≥ checkOut then
      .error "Check-out date must be after check-in date"
    else
      .ok (!hasOverlappingBooking s lid checkIn checkOut none)

/-- Method `Booking.clean` (models.py 165-186): date order, overlap excluding the
booking's own pk, and guest capacity against the listing. -/
def bookingClean (s : Store) (b : Booking) : Except String Unit :=
  if b.checkOut ≤ b.checkIn then
    .error "Check-out date must be after check-in date"
  else if hasOverlappingBooking s b.listingId b.checkIn b.checkOut (some b.id) then
    .error "This property is already booked for the selected dates."
  else
    match s.findListing b.listingId with
    | none => .error "Listing matching query does not exist."
    | some l =>
      if b.guests > l.maxGuests then
        .error "Number of guests exceeds the maximum allowed"
      else
        .ok ()

/-- Django `Booking.full_clean()`: field validators first — `validate_future_date`
(models.py 9-11) on `check_in` and `check_out`, `MinValueValidator(1)` on
`guests`, non-null and `MinValueValidator(0.01)` on `total_price` — then
`Booking.clean`. -/
def bookingFullClean (s : Store) (b : Booking) (today : Int) :
    Except String Unit :=
  if b.checkIn < today then .error "Date cannot be in the past"
  else if b.checkOut < today then .error "Date cannot be in the past"
  else if b.guests < 1 then
    .error "Ensure this value is greater than or equal to 1."
  else
    match b.totalPrice with
    | none => .error "This field cannot be null."
    | some p =>
      if p < 1 then .error "Ensure this value is greater than or equal to 0.01."
      else bookingClean s b

/-- Python truthiness of the Decimal `total_price`: `not self.total_price`
is true for `None` and for zero. -/
def priceIsFalsy : Option Int → Bool
  | none => true
  | some p => p == 0

/-- Method `Booking.save` (models.py 188-194): `full_clean()`, then derive
`total_price = price_per_night * nights` only when `total_price` is unset,
then persist. -/
def bookingSave (s : Store) (b : Booking) (today : Int) :
    Except String Store :=
  match bookingFullClean s b today with
  | .error e => .error e
  | .ok () =>
    let b' :=
      if priceIsFalsy b.totalPrice then
        match s.findListing b.listingId with
        | some l =>
          { b with totalPrice := some (l.pricePerNightCents * (b.checkOut - b.checkIn)) }
        | none => b
      else b
    .ok (s.putBooking b')

/-- Errors surfaced by `BookingViewSet.cancel` (views.py 93-126). A
`validation` error is a `ValidationError` escaping `booking.save()`. -/
inductive CancelError where
  | notFound
  | forbidden
  | alreadyCancelled
  | alreadyCompleted
  | validation (msg : String)
deriving DecidableEq, Repr

/-- Endpoint `BookingViewSet.cancel` (views.py 93-126): only the guest or staff may
cancel; already-CANCELLED and COMPLETED bookings are refused; otherwise
status is set to CANCELLED and the booking saved (which re-runs
`full_clean`). -/
def cancel (s : Store) (bid : Nat) (userId : Nat) (isStaff : Bool)
    (today : Int) : Except CancelError Store :=
  match s.findBooking bid with
  | none => .error .notFound
  | some b =>
    if b.guestId ≠ userId ∧ isStaff = false then .error .forbidden
    else if b.status = .CANCELLED then .error .alreadyCancelled
    else if b.status = .COMPLETED then .error .alreadyCompleted
    else
      match bookingSave s { b with status := .CANCELLED } today with
      | .error e => .error (.validation e)
      | .ok s' => .ok s'

/-- The completed-stay ORM query shared by `Review.clean` (models.py
307-312) and `ReviewCreateSerializer.validate` (serializers copy.py
72-77): a booking of the listing by the user with status COMPLETED and
`check_out <= today`. -/
def hasCompletedBooking (s : Store) (lid uid : Nat) (today : Int) : Bool :=
  s.bookings.any fun b =>
    decide (b.listingId = lid ∧ b.guestId = uid ∧
      b.status = .COMPLETED ∧ b.checkOut ≤ today)

/-- The ratings of the listing's public reviews,
`Review.objects.filter(listing=self, is_public=True)` (models.py 339-342). -/
def publicRatings (s : Store) (lid : Nat) : List Nat :=
  (s.reviews.filter fun r => r.listingId = lid ∧ r.isPublic = true).map
    (fun r => r.rating)

/-- The SQL `Avg` with Django's `or 0` default (models.py 343-347): the
exact mean of the ratings, `0` when there are none. -/
def ratingsMean (l : List Nat) : ℚ :=
  if l.length = 0 then 0 else (l.sum : ℚ) / (l.length : ℚ)

/-- Rounding of a rational to the nearest integer with ties to the even
integer (ROUND_HALF_EVEN, the default rounding of the decimal context
Django uses when adapting a Decimal for the database). -/
def roundHalfEven (q : ℚ) : ℤ :=
  let f := ⌊q⌋
  if q - f < 1/2 then f
  else if q - f > 1/2 then f + 1
  else if f % 2 = 0 then f else f + 1

/-- The quantization `average_rating` undergoes on persist: the column is
`DecimalField(max_digits=3, decimal_places=2)` (models.py 360-366), so
the stored value is the mean rounded to 2 decimal places. -/
def quantize2 (q : ℚ) : ℚ :=
  (roundHalfEven (q * 100) : ℚ) / 100

/-- Function `update_average_rating` (models.py 333-354): recompute the listing's
`average_rating` and `review_count` from its public reviews and persist
them on the listing row; the DECIMAL(3,2) column quantizes the mean to
2 decimal places on write. -/
def updateAverageRating (s : Store) (lid : Nat) : Store :=
  let rs := publicRatings s lid
  { s with listings := s.listings.map fun l =>
      if l.id = lid then
        { l with averageRating := quantize2 (ratingsMean rs),
                 reviewCount := rs.length }
      else l }

/-- Django `Review.full_clean()`: rating field validators
(`MinValueValidator(1)`, `MaxValueValidator(5)`, models.py 247), then
`Review.clean` (models.py 303-317), then `validate_unique` for
`unique_together = ['listing', 'user']` (models.py 290). -/
def reviewFullClean (s : Store) (r : Review) (today : Int) :
    Except String Unit :=
  if r.rating < 1 then
    .error "Ensure this value is greater than or equal to 1."
  else if r.rating > 5 then
    .error "Ensure this value is less than or equal to 5."
  else if ¬hasCompletedBooking s r.listingId r.userId today then
    .error "You can only review properties you've actually stayed at."
  else if (r.stayDate.any fun d => decide (d > today)) then
    .error "Stay date cannot be in the future."
  else if s.reviews.any (fun x =>
      decide (x.id ≠ r.id ∧ x.listingId = r.listingId ∧ x.userId = r.userId)) then
    .error "Review with this Listing and User already exists."
  else
    .ok ()

/-- Method `Review.save` (models.py 319-324): `full_clean()`, persist the review,
then `self.listing.update_average_rating()`. -/
def reviewSave (s : Store) (r : Review) (today : Int) : Except String Store :=
  match reviewFullClean s r today with
  | .error e => .error e
  | .ok () => .ok (updateAverageRating (s.putReview r) r.listingId)

/-- Method `Review.delete` (models.py 326-330): remove the review, then
recompute the listing's aggregate. -/
def reviewDelete (s : Store) (rid : Nat) : Store :=
  match s.findReview rid with
  | none => s
  | some r =>
    updateAverageRating
      { s with reviews := s.reviews.filter fun x => x.id ≠ rid }
      r.listingId

/-- Review creation through `ReviewCreateSerializer` (serializers copy.py
54-84): rating field validation, then `validate` — duplicate-review check
and completed-booking check — then `Review.save` (which re-runs
`full_clean`). -/
def createReview (s : Store) (newId lid uid : Nat) (rating : Nat)
    (stayDate : Option Int) (isPublic : Bool) (today : Int) :
    Except String Store :=
  if rating < 1 then
    .error "Ensure this value is greater than or equal to 1."
  else if rating > 5 then
    .error "Ensure this value is less than or equal to 5."
  else if s.reviews.any (fun x => decide (x.listingId = lid ∧ x.userId = uid)) then
    .error "You have already reviewed this listing."
  else if ¬hasCompletedBooking s lid uid today then
    .error "You can only review listings you've stayed at after your stay is completed."
  else
    reviewSave s
      { id := newId, listingId := lid, userId := uid, rating := rating,
        stayDate := stayDate, isPublic := isPublic } today

/-- Serializer `BookingSerializer.validate` (serializers copy.py 187-249), with the
DRF field stage first: `listing_id` must name an existing listing
(`PrimaryKeyRelatedField`), the model field validator
`validate_future_date` runs on `check_in` and `check_out`, and
`MinValueValidator(1)` (copied from the `guests` model field) runs on
`guests` — any field error pre-empts `validate()`. `instancePk` is
`self.instance.pk` on update, `none` on create. -/
def bookingSerializerValidate (s : Store) (today : Int)
    (checkIn checkOut : Int) (lid : Nat) (guests : Nat)
    (instancePk : Option Nat) : Except String Unit :=
  match s.findListing lid with
  | none => .error "Invalid pk - object does not exist."
  | some listing =>
    if checkIn < today then .error "Date cannot be in the past"
    else if checkOut < today then .error "Date cannot be in the past"
    else if guests < 1 then
      .error "Ensure this value is greater than or equal to 1."
    else if checkIn < today then .error "Check-in date cannot be in the past."
    else if checkOut ≤ checkIn then
      .error "Check-out date must be after check-in date."
    else if checkOut - checkIn < 1 then .error "Minimum stay is 1 night."
    else if checkOut - checkIn > 30 then .error "Maximum stay is 30 nights."
    else if listing.isAvailable = false then
      .error "This listing is not available for booking."
    else if hasOverlappingBooking s lid checkIn checkOut instancePk then
      .error "This listing is not available for the selected dates."
    else if guests > listing.maxGuests then
      .error "Maximum guests allowed for this listing."
    else
      .ok ()

/-- The price derivation of `BookingSerializer.create` (serializers
copy.py 257-259): `nights = (check_out - check_in).days`,
`total_price = listing.price_per_night * nights`. Exact in cents, so the
2-decimal-place result needs no rounding. -/
def computeTotalPriceCents (nightlyRateCents : Int) (checkIn checkOut : Int) :
    Int :=
  nightlyRateCents * (checkOut - checkIn)

/-- Booking creation through `BookingSerializer` (serializers copy.py
187-272): `validate`, then `create` computes the total price and calls
`Booking.objects.create` with status PENDING — which runs the overriding
`Booking.save`. -/
def bookingSerializerCreate (s : Store) (today : Int) (newId : Nat)
    (lid uid : Nat) (checkIn checkOut : Int) (guests : Nat) :
    Except String Store :=
  match bookingSerializerValidate s today checkIn checkOut lid guests none with
  | .error e => .error e
  | .ok () =>
    match s.findListing lid with
    | none => .error "Invalid pk - object does not exist."
    | some l =>
      bookingSave s
        { id := newId, listingId := lid, guestId := uid,
          checkIn := checkIn, checkOut := checkOut, guests := guests,
          totalPrice := some (computeTotalPriceCents l.pricePerNightCents checkIn checkOut),
          status := .PENDING, cancelledAt := none,
          cancellationReason := none } today

/-- Endpoint DELETE of `BookingViewSet` (`ModelViewSet.destroy`): remove the row. -/
def bookingDestroy (s : Store) (bid : Nat) : Store :=
  { s with bookings := s.bookings.filter fun x => x.id ≠ bid }

/-- The no-double-booking invariant (spec §3, §8): no two distinct
bookings of the same listing that are both PENDING or CONFIRMED have
overlapping half-open `[check_in, check_out)` intervals. -/
def overlapFree (s : Store) : Prop :=
  ∀ b1 ∈ s.bookings, ∀ b2 ∈ s.bookings,
    b1.listingId = b2.listingId →
    b1.status.isActive = true → b2.status.isActive = true →
    b1.checkOut > b2.checkIn → b1.checkIn < b2.checkOut →
    b1 = b2

instance (s : Store) : Decidable (overlapFree s) := by
  unfold overlapFree; infer_instance

/-- The store states reachable through the application's operations:
bookings enter and change only via `Booking.save` (directly, through the
booking serializer, or through cancellation) or deletion; reviews via
creation and deletion; the listing table may change arbitrarily (listing
CRUD does not touch bookings). -/
inductive Reachable : Store → Prop where
  | init (listings : List Listing) : Reachable ⟨listings, [], []⟩
  | listingWrite (s : Store) (L : List Listing) : Reachable s →
      Reachable { s with listings := L }
  | save (s : Store) (b : Booking) (today : Int) (s' : Store) :
      Reachable s → bookingSave s b today = .ok s' → Reachable s'
  | serializerCreate (s : Store) (today : Int) (newId lid uid : Nat)
      (checkIn checkOut : Int) (guests : Nat) (s' : Store) :
      Reachable s →
      bookingSerializerCreate s today newId lid uid checkIn checkOut guests = .ok s' →
      Reachable s'
  | cancelStep (s : Store) (bid uid : Nat) (staff : Bool) (today : Int)
      (s' : Store) : Reachable s → cancel s bid uid staff today = .ok s' →
      Reachable s'
  | destroy (s : Store) (bid : Nat) : Reachable s →
      Reachable (bookingDestroy s bid)
  | reviewCreate (s : Store) (newId lid uid rating : Nat)
      (stayDate : Option Int) (isPublic : Bool) (today : Int) (s' : Store) :
      Reachable s →
      createReview s newId lid uid rating stayDate isPublic today = .ok s' →
      Reachable s'
  | reviewWrite (s : Store) (r : Review) (today : Int) (s' : Store) :
      Reachable s → reviewSave s r today = .ok s' → Reachable s'
  | reviewDel (s : Store) (rid : Nat) : Reachable s →
      Reachable (reviewDelete s rid)

/-- The spec-side aggregate invariant (spec §3, §4.4): the listing row
named `lid` carries the mean rating of the listing's public reviews —
quantized to the 2 decimal places of the DECIMAL(3,2) column — and their
count. -/
def aggregatesCorrect (s : Store) (lid : Nat) : Prop :=
  ∀ l ∈ s.listings, l.id = lid →
    l.averageRating =
      quantize2 (ratingsMean ((s.reviews.filter fun r =>
        r.listingId = lid ∧ r.isPublic = true).map fun r => r.rating)) ∧
    l.reviewCount =
      ((s.reviews.filter fun r =>
        r.listingId = lid ∧ r.isPublic = true)).length

/-! ### Concrete scenario data -/

/-- A listing: id 1, owner 50, 100.00 per night, up to 4 guests. -/
def demoListing : Listing :=
  { id := 1, ownerId := 50, pricePerNightCents := 10000, maxGuests := 4,
    isAvailable := true, averageRating := 0, reviewCount := 0 }

/-- A PENDING booking of listing 1 for `[day 5, day 10)` by guest 10. -/
def activeBooking : Booking :=
  { id := 1, listingId := 1, guestId := 10, checkIn := 5, checkOut := 10,
    guests := 2, totalPrice := some 50000, status := .PENDING,
    cancelledAt := none, cancellationReason := none }

/-- Listing 1 with its single PENDING booking for `[5, 10)`. -/
def demoStore : Store := ⟨[demoListing], [activeBooking], []⟩

/-- A second booking `[10, 15)` touching the first one's checkout day. -/
def touchingBooking : Booking :=
  { id := 2, listingId := 1, guestId := 11, checkIn := 10, checkOut := 15,
    guests := 2, totalPrice := some 50000, status := .PENDING,
    cancelledAt := none, cancellationReason := none }

/-- The store after `touchingBooking` is saved into `demoStore`. -/
def demoStoreSaved : Store :=
  (bookingSave demoStore touchingBooking 0).toOption.getD ⟨[], [], []⟩

/-- The demo booking already marked NO_SHOW. -/
def noShowStore : Store :=
  ⟨[demoListing], [{ activeBooking with status := .NO_SHOW }], []⟩

/-- The store produced by cancelling the NO_SHOW booking. -/
def noShowCancelled : Store :=
  (cancel noShowStore 1 10 false 0).toOption.getD ⟨[], [], []⟩

/-- A COMPLETED stay of listing 1 by the given guest, checked out day 10. -/
def completedBooking (bid uid : Nat) : Booking :=
  { id := bid, listingId := 1, guestId := uid, checkIn := 5, checkOut := 10,
    guests := 2, totalPrice := some 50000, status := .COMPLETED,
    cancelledAt := none, cancellationReason := none }

/-- Listing 1 with three COMPLETED stays by guests 10, 11 and 12. -/
def reviewsStore0 : Store :=
  ⟨[demoListing],
   [completedBooking 1 10, completedBooking 2 11, completedBooking 3 12], []⟩

/-- After guest 10 reviews listing 1 with rating 5. -/
def reviewsStore1 : Store :=
  (createReview reviewsStore0 1 1 10 5 none true 100).toOption.getD ⟨[], [], []⟩

/-- After guest 11 additionally reviews with rating 4. -/
def reviewsStore2 : Store :=
  (createReview reviewsStore1 2 1 11 4 none true 100).toOption.getD ⟨[], [], []⟩

/-- After guest 12 additionally reviews with rating 3. -/
def reviewsStore3 : Store :=
  (createReview reviewsStore2 3 1 12 3 none true 100).toOption.getD ⟨[], [], []⟩

/-- The rating-3 review of guest 12, as a record. -/
def thirdReview : Review :=
  { id := 3, listingId := 1, userId := 12, rating := 3, stayDate := none,
    isPublic := true }

/-- A booking whose check-in (day 5) lies before "today" (day 8). -/
def pastStore : Store :=
  ⟨[demoListing],
   [{ activeBooking with status := .CONFIRMED }], []⟩

/-- The store after guest 11 books `[10, 12)` through the serializer. -/
def serializerCreatedStore : Store :=
  (bookingSerializerCreate demoStore 0 2 1 11 10 12 2).toOption.getD ⟨[], [], []⟩

/-- The store after guest 10 cancels the PENDING demo booking. -/
def cancelledStore : Store :=
  (cancel demoStore 1 10 false 0).toOption.getD ⟨[], [], []⟩

/-! ### Helper lemmas -/

theorem isActive_iff (st : BookingStatus) :
    st.isActive = true ↔ st = .PENDING ∨ st = .CONFIRMED := by
  cases st <;> simp [BookingStatus.isActive]

theorem findBooking_id {s : Store} {bid : Nat} {b : Booking}
    (h : s.findBooking bid = some b) : b.id = bid := by
  have := List.find?_some h
  simpa using this

theorem hasOverlappingBooking_eq_false {s : Store} {lid : Nat}
    {checkIn checkOut : Int} {ex : Option Nat} :
    hasOverlappingBooking s lid checkIn checkOut ex = false ↔
      ∀ b ∈ s.bookings,
        ¬(b.listingId = lid ∧ b.status.isActive = true ∧
          b.checkOut > checkIn ∧ b.checkIn < checkOut ∧
          ∀ pk ∈ ex, b.id ≠ pk) := by
  simp [hasOverlappingBooking, List.any_eq_false]

theorem bookingFullClean_ok {s : Store} {b : Booking} {today : Int}
    (h : bookingFullClean s b today = .ok ()) :
    today ≤ b.checkIn ∧ today ≤ b.checkOut ∧ 1 ≤ b.guests ∧
      (∃ p, b.totalPrice = some p ∧ 1 ≤ p) ∧ b.checkIn < b.checkOut ∧
      hasOverlappingBooking s b.listingId b.checkIn b.checkOut (some b.id) = false ∧
      ∃ l, s.findListing b.listingId = some l ∧ b.guests ≤ l.maxGuests := by
  unfold bookingFullClean at h
  split_ifs at h with h1 h2 h3
  split at h
  · exact absurd h (by simp)
  next p htp =>
    split_ifs at h with h4
    unfold bookingClean at h
    split_ifs at h with h5 h6
    split at h
    · exact absurd h (by simp)
    next l hl =>
      split_ifs at h with h7
      exact ⟨by omega, by omega, by omega, ⟨p, htp, by omega⟩, by omega,
        by simpa using h6, l, hl, by omega⟩

theorem bookingSave_ok {s : Store} {b : Booking} {today : Int} {s' : Store}
    (h : bookingSave s b today = .ok s') :
    bookingFullClean s b today = .ok () ∧ s' = s.putBooking b := by
  unfold bookingSave at h
  rcases hfc : bookingFullClean s b today with e | u
  · rw [hfc] at h; exact absurd h (by simp)
  · cases u
    obtain ⟨-, -, -, ⟨p, hp, hp1⟩, -⟩ := bookingFullClean_ok hfc
    rw [hfc] at h
    have hfalsy : priceIsFalsy b.totalPrice = false := by
      rw [hp]; simp only [priceIsFalsy, beq_iff_eq]
      simp; omega
    simp only [hfalsy, if_false, Bool.false_eq_true] at h
    exact ⟨rfl, (Except.ok.inj h).symm⟩

theorem findBooking_putBooking (s : Store) (b : Booking) :
    (s.putBooking b).findBooking b.id = some b := by
  simp [Store.putBooking, Store.findBooking, List.find?]

theorem mem_putBooking {s : Store} {b x : Booking} :
    x ∈ (s.putBooking b).bookings ↔
      x = b ∨ (x ∈ s.bookings ∧ x.id ≠ b.id) := by
  simp [Store.putBooking, List.mem_filter]

theorem cancel_ok {s : Store} {bid uid : Nat} {staff : Bool} {today : Int}
    {s' : Store} (h : cancel s bid uid staff today = .ok s') :
    ∃ b, s.findBooking bid = some b ∧
      ¬(b.guestId ≠ uid ∧ staff = false) ∧ b.status ≠ .CANCELLED ∧
      b.status ≠ .COMPLETED ∧
      bookingSave s { b with status := .CANCELLED } today = .ok s' := by
  unfold cancel at h
  split at h
  · exact absurd h (by simp)
  next b hb =>
    split_ifs at h with h1 h2 h3
    split at h
    · exact absurd h (by simp)
    next s'' hs =>
      refine ⟨b, hb, h1, h2, h3, ?_⟩
      rw [hs]
      exact congrArg Except.ok (Except.ok.inj h)

theorem bookingSerializerCreate_ok {s : Store} {today : Int}
    {newId lid uid : Nat} {checkIn checkOut : Int} {guests : Nat} {s' : Store}
    (h : bookingSerializerCreate s today newId lid uid checkIn checkOut guests = .ok s') :
    ∃ l, s.findListing lid = some l ∧
      bookingSave s
        { id := newId, listingId := lid, guestId := uid,
          checkIn := checkIn, checkOut := checkOut, guests := guests,
          totalPrice := some (computeTotalPriceCents l.pricePerNightCents checkIn checkOut),
          status := .PENDING, cancelledAt := none,
          cancellationReason := none } today = .ok s' := by
  unfold bookingSerializerCreate at h
  split at h
  · exact absurd h (by simp)
  · split at h
    · exact absurd h (by simp)
    next l hl => exact ⟨l, hl, h⟩

theorem bookingSave_preserves_overlapFree {s : Store} {b : Booking}
    {today : Int} {s' : Store} (hinv : overlapFree s)
    (h : bookingSave s b today = .ok s') : overlapFree s' := by
  obtain ⟨hfc, rfl⟩ := bookingSave_ok h
  obtain ⟨-, -, -, -, -, hov, -⟩ := bookingFullClean_ok hfc
  rw [hasOverlappingBooking_eq_false] at hov
  intro b1 hb1 b2 hb2 hlid hact1 hact2 ho1 ho2
  rw [mem_putBooking] at hb1 hb2
  rcases hb1 with rfl | ⟨hb1, hid1⟩
  · rcases hb2 with rfl | ⟨hb2, hid2⟩
    · rfl
    · exact (hov b2 hb2 ⟨hlid.symm, hact2, ho2, ho1, by simpa using hid2⟩).elim
  · rcases hb2 with rfl | ⟨hb2, hid2⟩
    · exact (hov b1 hb1 ⟨hlid, hact1, ho1, ho2, by simpa using hid1⟩).elim
    · exact hinv b1 hb1 b2 hb2 hlid hact1 hact2 ho1 ho2

theorem reviewSave_bookings {s : Store} {r : Review} {today : Int} {s' : Store}
    (h : reviewSave s r today = .ok s') : s'.bookings = s.bookings := by
  unfold reviewSave at h
  split at h
  · exact absurd h (by simp)
  · obtain rfl := Except.ok.inj h
    rfl

theorem reviewDelete_bookings (s : Store) (rid : Nat) :
    (reviewDelete s rid).bookings = s.bookings := by
  unfold reviewDelete
  split <;> rfl

theorem createReview_ok {s : Store} {newId lid uid rating : Nat}
    {stayDate : Option Int} {isPublic : Bool} {today : Int} {s' : Store}
    (h : createReview s newId lid uid rating stayDate isPublic today = .ok s') :
    reviewSave s
      { id := newId, listingId := lid, userId := uid, rating := rating,
        stayDate := stayDate, isPublic := isPublic } today = .ok s' := by
  unfold createReview at h
  split_ifs at h with h1 h2 h3 h4
  exact h

theorem reachable_overlapFree {s : Store} (h : Reachable s) : overlapFree s := by
  induction h with
  | init listings => intro b1 hb1; simp at hb1
  | listingWrite s L hs ih => exact ih
  | save s b today s' hs hsave ih =>
      exact bookingSave_preserves_overlapFree ih hsave
  | serializerCreate s today newId lid uid checkIn checkOut guests s' hs hc ih =>
      obtain ⟨l, -, hsave⟩ := bookingSerializerCreate_ok hc
      exact bookingSave_preserves_overlapFree ih hsave
  | cancelStep s bid uid staff today s' hs hc ih =>
      obtain ⟨b, -, -, -, -, hsave⟩ := cancel_ok hc
      exact bookingSave_preserves_overlapFree ih hsave
  | destroy s bid hs ih =>
      intro b1 hb1 b2 hb2
      exact ih b1 (List.mem_filter.mp hb1).1 b2 (List.mem_filter.mp hb2).1
  | reviewCreate s newId lid uid rating stayDate isPublic today s' hs hc ih =>
      have hb := reviewSave_bookings (createReview_ok hc)
      unfold overlapFree
      rw [hb]
      exact ih
  | reviewWrite s r today s' hs hsave ih =>
      have hb := reviewSave_bookings hsave
      unfold overlapFree
      rw [hb]
      exact ih
  | reviewDel s rid hs ih =>
      unfold overlapFree
      rw [reviewDelete_bookings]
      exact ih

theorem reviewSave_ok {s : Store} {r : Review} {today : Int} {s' : Store}
    (h : reviewSave s r today = .ok s') :
    s' = updateAverageRating (s.putReview r) r.listingId := by
  unfold reviewSave at h
  split at h
  · exact absurd h (by simp)
  · exact (Except.ok.inj h).symm

theorem updateAverageRating_correct (s : Store) (lid : Nat) :
    aggregatesCorrect (updateAverageRating s lid) lid := by
  intro l hl hid
  unfold updateAverageRating at hl
  simp only [List.mem_map] at hl
  obtain ⟨l0, hl0, rfl⟩ := hl
  by_cases h : l0.id = lid
  · rw [if_pos h]
    constructor
    · rfl
    · show (publicRatings s lid).length = _
      rw [publicRatings, List.length_map]
      rfl
  · rw [if_neg h] at hid ⊢
    exact absurd hid h

/-! ### Claim theorems -/

/-- C1: for every listing and every date pair with checkIn < checkOut, the
availability query returns true iff no booking of that listing with status
PENDING or CONFIRMED (excluding the optional excludeBookingId) satisfies
`existing.check_out > checkIn` and `existing.check_in < checkOut`; a
checkIn ≥ checkOut input is rejected as an invalid date range. The
touching-boundary behaviour is the witness's instance. -/
theorem availability_query_spec :
    (∀ (s : Store) (lid : Nat) (l : Listing) (checkIn checkOut : Int),
        s.findListing lid = some l → checkIn < checkOut →
        (availableEndpoint s lid checkIn checkOut = .ok true ↔
          ∀ b ∈ s.bookings,
            ¬(b.listingId = lid ∧ (b.status = .PENDING ∨ b.status = .CONFIRMED) ∧
              b.checkOut > checkIn ∧ b.checkIn < checkOut)))
    ∧ (∀ (s : Store) (lid excludeBookingId : Nat) (checkIn checkOut : Int),
        (hasOverlappingBooking s lid checkIn checkOut (some excludeBookingId) = false ↔
          ∀ b ∈ s.bookings, b.id ≠ excludeBookingId →
            ¬(b.listingId = lid ∧ (b.status = .PENDING ∨ b.status = .CONFIRMED) ∧
              b.checkOut > checkIn ∧ b.checkIn < checkOut)))
    ∧ (∀ (s : Store) (lid : Nat) (l : Listing) (checkIn checkOut : Int),
        s.findListing lid = some l → checkOut ≤ checkIn →
        availableEndpoint s lid checkIn checkOut =
          .error "Check-out date must be after check-in date") := by
  refine ⟨?_, ?_, ?_⟩
  · intro s lid l checkIn checkOut hl hlt
    have heval : availableEndpoint s lid checkIn checkOut =
        .ok (!hasOverlappingBooking s lid checkIn checkOut none) := by
      unfold availableEndpoint
      rw [hl, if_neg (by omega)]
    rw [heval]
    have hok : (Except.ok (ε := String)
          (!hasOverlappingBooking s lid checkIn checkOut none) = .ok true) ↔
        hasOverlappingBooking s lid checkIn checkOut none = false := by
      simp
    rw [hok, hasOverlappingBooking_eq_false]
    constructor
    · intro h b hb hcon
      obtain ⟨h1, h2, h3, h4⟩ := hcon
      exact h b hb ⟨h1, (isActive_iff b.status).mpr h2, h3, h4, by simp⟩
    · intro h b hb hcon
      obtain ⟨h1, h2, h3, h4, -⟩ := hcon
      exact h b hb ⟨h1, (isActive_iff b.status).mp h2, h3, h4⟩
  · intro s lid excludeBookingId checkIn checkOut
    rw [hasOverlappingBooking_eq_false]
    constructor
    · intro h b hb hne hcon
      obtain ⟨h1, h2, h3, h4⟩ := hcon
      exact h b hb ⟨h1, (isActive_iff b.status).mpr h2, h3, h4, by simpa using hne⟩
    · intro h b hb hcon
      obtain ⟨h1, h2, h3, h4, h5⟩ := hcon
      exact h b hb (by simpa using h5) ⟨h1, (isActive_iff b.status).mp h2, h3, h4⟩
  · intro s lid l checkIn checkOut hl hle
    unfold availableEndpoint
    rw [hl, if_pos (by omega)]

/-- C1 witness: listing 1 is booked PENDING for `[5, 10)`; the range
`[10, 12)` touches the boundary and the endpoint reports it available. -/
theorem availability_query_spec_witness :
    demoStore.findListing 1 = some demoListing ∧ (10 : Int) < 12 ∧
    (availableEndpoint demoStore 1 10 12 = .ok true ↔
      ∀ b ∈ demoStore.bookings,
        ¬(b.listingId = 1 ∧ (b.status = .PENDING ∨ b.status = .CONFIRMED) ∧
          b.checkOut > 10 ∧ b.checkIn < 12)) ∧
    availableEndpoint demoStore 1 10 12 = .ok true :=
  ⟨rfl, by decide,
   availability_query_spec.1 demoStore 1 demoListing 10 12 rfl (by decide), rfl⟩

/-- C2: every reachable store is free of double bookings — no two distinct
bookings of the same listing that are both PENDING or CONFIRMED overlap in
the half-open sense — and every operation that creates or updates a
booking (`Booking.save`, serializer creation, cancellation) preserves the
invariant. -/
theorem no_double_booking_invariant :
    (∀ s : Store, Reachable s → overlapFree s)
    ∧ (∀ (s : Store) (b : Booking) (today : Int) (s' : Store),
        overlapFree s → bookingSave s b today = .ok s' → overlapFree s')
    ∧ (∀ (s : Store) (today : Int) (newId lid uid : Nat)
        (checkIn checkOut : Int) (guests : Nat) (s' : Store),
        overlapFree s →
        bookingSerializerCreate s today newId lid uid checkIn checkOut guests = .ok s' →
        overlapFree s')
    ∧ (∀ (s : Store) (bid uid : Nat) (staff : Bool) (today : Int) (s' : Store),
        overlapFree s → cancel s bid uid staff today = .ok s' →
        overlapFree s') := by
  refine ⟨fun s h => reachable_overlapFree h,
    fun s b today s' hinv h => bookingSave_preserves_overlapFree hinv h,
    ?_, ?_⟩
  · intro s today newId lid uid checkIn checkOut guests s' hinv h
    obtain ⟨l, -, hsave⟩ := bookingSerializerCreate_ok h
    exact bookingSave_preserves_overlapFree hinv hsave
  · intro s bid uid staff today s' hinv h
    obtain ⟨b, -, -, -, -, hsave⟩ := cancel_ok h
    exact bookingSave_preserves_overlapFree hinv hsave

/-- C2 witness: saving the boundary-touching booking into the demo store
succeeds and keeps the store overlap-free. -/
theorem no_double_booking_invariant_witness :
    overlapFree demoStore ∧
    bookingSave demoStore touchingBooking 0 = .ok demoStoreSaved ∧
    overlapFree demoStoreSaved :=
  ⟨by decide, rfl,
   no_double_booking_invariant.2.1 demoStore touchingBooking 0 demoStoreSaved
     (by decide) rfl⟩

/-- C3: after every review save and every review deletion the listing's
`average_rating` equals the mean rating of its public reviews (0 when
none) quantized to the DECIMAL(3,2) column's 2 decimal places, and
`review_count` equals their number; concretely, three public reviews
rated 5, 4, 3 give average 4.00 and count 3, and deleting the rating-3
review leaves average 4.50 and count 2. -/
theorem review_aggregate_recompute :
    (∀ (s : Store) (r : Review) (today : Int) (s' : Store),
        reviewSave s r today = .ok s' → aggregatesCorrect s' r.listingId)
    ∧ (∀ (s : Store) (rid : Nat) (r : Review), s.findReview rid = some r →
        aggregatesCorrect (reviewDelete s rid) r.listingId)
    ∧ createReview reviewsStore2 3 1 12 3 none true 100 = .ok reviewsStore3
    ∧ ((reviewsStore3.findListing 1).map
        fun l => (l.averageRating, l.reviewCount)) = some (4, 3)
    ∧ (((reviewDelete reviewsStore3 3).findListing 1).map
        fun l => (l.averageRating, l.reviewCount)) = some (9 / 2, 2) := by
  refine ⟨?_, ?_, rfl, ?_, ?_⟩
  · intro s r today s' h
    rw [reviewSave_ok h]
    exact updateAverageRating_correct _ _
  · intro s rid r hr
    unfold reviewDelete
    rw [hr]
    exact updateAverageRating_correct _ _
  · rw [show (reviewsStore3.findListing 1).map
        (fun l => (l.averageRating, l.reviewCount)) =
        some (quantize2 (ratingsMean [3, 4, 5]), 3) from rfl]
    norm_num [ratingsMean, quantize2, roundHalfEven]
  · rw [show (((reviewDelete reviewsStore3 3).findListing 1).map
        fun l => (l.averageRating, l.reviewCount)) =
        some (quantize2 (ratingsMean [4, 5]), 2) from rfl]
    norm_num [ratingsMean, quantize2, roundHalfEven]

/-- C3 witness: saving guest 12's rating-3 review into the two-review
store recomputes listing 1's aggregates correctly. -/
theorem review_aggregate_recompute_witness :
    reviewSave reviewsStore2 thirdReview 100 = .ok reviewsStore3 ∧
    aggregatesCorrect reviewsStore3 1 :=
  ⟨rfl, review_aggregate_recompute.1 reviewsStore2 thirdReview 100
    reviewsStore3 rfl⟩

/-- C4: booking-price derivation uses nights = checkOut − checkIn (whole
days), rejects nights ≤ 0 as an invalid date range, persists
`nightlyRate × nights` (exact in cents, hence exact at 2 decimal places),
yields 300.00 for rate 100.00 from 2024-01-01 (day 19723) to 2024-01-04
(day 19726), and `Booking.save` derives a price only when none was
supplied — a successful save keeps a supplied price unchanged. -/
theorem total_price_computation :
    (∀ (s : Store) (l : Listing) (today checkIn checkOut : Int)
        (lid guests : Nat) (instancePk : Option Nat),
        s.findListing lid = some l → today ≤ checkIn → today ≤ checkOut →
        1 ≤ guests → checkOut ≤ checkIn →
        bookingSerializerValidate s today checkIn checkOut lid guests instancePk =
          .error "Check-out date must be after check-in date.")
    ∧ (∀ (s : Store) (today : Int) (newId lid uid : Nat)
        (checkIn checkOut : Int) (guests : Nat) (s' : Store),
        bookingSerializerCreate s today newId lid uid checkIn checkOut guests = .ok s' →
        ∃ l, s.findListing lid = some l ∧
          ∃ b, s'.findBooking newId = some b ∧
            b.totalPrice =
              some (computeTotalPriceCents l.pricePerNightCents checkIn checkOut))
    ∧ computeTotalPriceCents 10000 19723 19726 = 30000
    ∧ (∀ (s : Store) (b : Booking) (today : Int) (s' : Store),
        bookingSave s b today = .ok s' →
        priceIsFalsy b.totalPrice = false ∧ s'.findBooking b.id = some b) := by
  refine ⟨?_, ?_, by decide, ?_⟩
  · intro s l today checkIn checkOut lid guests instancePk hl h1 h2 hg h3
    unfold bookingSerializerValidate
    rw [hl]
    dsimp only
    rw [if_neg (by omega), if_neg (by omega), if_neg (by omega),
      if_neg (by omega), if_pos (by omega)]
  · intro s today newId lid uid checkIn checkOut guests s' h
    obtain ⟨l, hl, hsave⟩ := bookingSerializerCreate_ok h
    obtain ⟨-, rfl⟩ := bookingSave_ok hsave
    exact ⟨l, hl, _, findBooking_putBooking _ _, rfl⟩
  · intro s b today s' h
    obtain ⟨hfc, rfl⟩ := bookingSave_ok h
    obtain ⟨-, -, -, ⟨p, hp, hp1⟩, -⟩ := bookingFullClean_ok hfc
    refine ⟨?_, findBooking_putBooking _ _⟩
    rw [hp]
    simp [priceIsFalsy]
    omega

/-- C4 witness: guest 11 books listing 1 for `[10, 12)` at rate 100.00;
the persisted booking carries total price 200.00. -/
theorem total_price_computation_witness :
    bookingSerializerCreate demoStore 0 2 1 11 10 12 2 = .ok serializerCreatedStore ∧
    (∃ l, demoStore.findListing 1 = some l ∧
      ∃ b, serializerCreatedStore.findBooking 2 = some b ∧
        b.totalPrice = some (computeTotalPriceCents l.pricePerNightCents 10 12)) ∧
    serializerCreatedStore.findBooking 2 = some
      { id := 2, listingId := 1, guestId := 11, checkIn := 10, checkOut := 12,
        guests := 2, totalPrice := some 20000, status := .PENDING,
        cancelledAt := none, cancellationReason := none } :=
  ⟨rfl,
   total_price_computation.2.1 demoStore 0 2 1 11 10 12 2
     serializerCreatedStore rfl, rfl⟩

/-- C5: review creation succeeds only when the (listing, user) pair has no
existing review and the user has a COMPLETED booking of the listing with
check-out ≤ today; with no such COMPLETED booking it fails — with the
review-ineligibility error whenever no duplicate-review error pre-empts
it — and, returning an error, persists nothing. -/
theorem review_eligibility :
    (∀ (s : Store) (newId lid uid rating : Nat) (stayDate : Option Int)
        (isPublic : Bool) (today : Int) (s' : Store),
        createReview s newId lid uid rating stayDate isPublic today = .ok s' →
        (∀ x ∈ s.reviews, ¬(x.listingId = lid ∧ x.userId = uid)) ∧
        hasCompletedBooking s lid uid today = true)
    ∧ (∀ (s : Store) (newId lid uid rating : Nat) (stayDate : Option Int)
        (isPublic : Bool) (today : Int),
        hasCompletedBooking s lid uid today = false →
        ∃ e, createReview s newId lid uid rating stayDate isPublic today = .error e)
    ∧ (∀ (s : Store) (newId lid uid rating : Nat) (stayDate : Option Int)
        (isPublic : Bool) (today : Int),
        1 ≤ rating → rating ≤ 5 →
        (∀ x ∈ s.reviews, ¬(x.listingId = lid ∧ x.userId = uid)) →
        hasCompletedBooking s lid uid today = false →
        createReview s newId lid uid rating stayDate isPublic today =
          .error "You can only review listings you've stayed at after your stay is completed.") := by
  refine ⟨?_, ?_, ?_⟩
  · intro s newId lid uid rating stayDate isPublic today s' h
    unfold createReview at h
    split_ifs at h with h1 h2 h3 h4
    refine ⟨?_, by simpa using h4⟩
    intro x hx
    have h3' := h3
    rw [Bool.not_eq_true, List.any_eq_false] at h3'
    simpa using h3' x hx
  · intro s newId lid uid rating stayDate isPublic today hnc
    rcases hcr : createReview s newId lid uid rating stayDate isPublic today with e | s'
    · exact ⟨e, rfl⟩
    · exfalso
      unfold createReview at hcr
      split_ifs at hcr with h1 h2 h3 h4
      simp_all
  · intro s newId lid uid rating stayDate isPublic today hr1 hr5 hnodup hnc
    unfold createReview
    rw [if_neg (by omega), if_neg (by omega),
      if_neg (by rw [Bool.not_eq_true, List.any_eq_false]; intro x hx; simpa using hnodup x hx),
      if_pos (by simp [hnc])]

/-- C5 witness: guest 10 has only a PENDING stay in the demo store, so the
serializer rejects the review with the ineligibility error. -/
theorem review_eligibility_witness :
    (1 ≤ 3 ∧ 3 ≤ 5) ∧
    (∀ x ∈ demoStore.reviews, ¬(x.listingId = 1 ∧ x.userId = 10)) ∧
    hasCompletedBooking demoStore 1 10 100 = false ∧
    createReview demoStore 7 1 10 3 none true 100 =
      .error "You can only review listings you've stayed at after your stay is completed." :=
  ⟨⟨by decide, by decide⟩, by simp [demoStore], rfl,
   review_eligibility.2.2 demoStore 7 1 10 3 none true 100 (by decide)
     (by decide) (by simp [demoStore]) rfl⟩

/-- C6: cancellation fails with Forbidden for a user who is neither the
booking's guest nor staff, with AlreadyCancelled on a CANCELLED booking
and with AlreadyCompleted on a COMPLETED one; every failure returns an
error, so no store (and no changed booking status) is produced. -/
theorem cancel_error_cases :
    (∀ (s : Store) (bid uid : Nat) (staff : Bool) (today : Int) (b : Booking),
        s.findBooking bid = some b → b.guestId ≠ uid → staff = false →
        cancel s bid uid staff today = .error .forbidden)
    ∧ (∀ (s : Store) (bid uid : Nat) (staff : Bool) (today : Int) (b : Booking),
        s.findBooking bid = some b → (b.guestId = uid ∨ staff = true) →
        b.status = .CANCELLED →
        cancel s bid uid staff today = .error .alreadyCancelled)
    ∧ (∀ (s : Store) (bid uid : Nat) (staff : Bool) (today : Int) (b : Booking),
        s.findBooking bid = some b → (b.guestId = uid ∨ staff = true) →
        b.status = .COMPLETED →
        cancel s bid uid staff today = .error .alreadyCompleted) := by
  refine ⟨?_, ?_, ?_⟩
  · intro s bid uid staff today b hb hne hstaff
    unfold cancel
    rw [hb]
    dsimp only
    rw [if_pos ⟨hne, hstaff⟩]
  · intro s bid uid staff today b hb hperm hst
    have hcond : ¬(b.guestId ≠ uid ∧ staff = false) := by
      intro hc
      rcases hperm with h | h
      · exact hc.1 h
      · simp [h] at hc
    unfold cancel
    rw [hb]
    dsimp only
    rw [if_neg hcond, if_pos hst]
  · intro s bid uid staff today b hb hperm hst
    have hcond : ¬(b.guestId ≠ uid ∧ staff = false) := by
      intro hc
      rcases hperm with h | h
      · exact hc.1 h
      · simp [h] at hc
    unfold cancel
    rw [hb]
    dsimp only
    rw [if_neg hcond, if_neg (by simp [hst]), if_pos hst]

/-- C6 witness: user 99, not the guest and not staff, is refused with
Forbidden when cancelling the demo booking. -/
theorem cancel_error_cases_witness :
    demoStore.findBooking 1 = some activeBooking ∧
    activeBooking.guestId ≠ 99 ∧
    cancel demoStore 1 99 false 0 = .error .forbidden :=
  ⟨rfl, by decide,
   cancel_error_cases.1 demoStore 1 99 false 0 activeBooking rfl (by decide) rfl⟩

/-- C7 counterexample: a NO_SHOW booking is not terminal — cancelling the
NO_SHOW demo booking succeeds and changes its status to CANCELLED, so an
operation does change the status of a booking in a claimed-terminal
state. -/
theorem terminal_states_counterexample :
    (noShowStore.findBooking 1).map Booking.status = some .NO_SHOW ∧
    ((cancel noShowStore 1 10 false 0).toOption.bind
      fun s => (s.findBooking 1).map Booking.status) = some .CANCELLED :=
  ⟨rfl, rfl⟩

/-- C7 amended: CANCELLED and COMPLETED are terminal under cancellation
— cancel refuses them with AlreadyCancelled / AlreadyCompleted — but
NO_SHOW is not guarded: a cancel of a NO_SHOW booking that passes
permission and validation sets its status to CANCELLED. -/
theorem terminal_states_amended :
    (∀ (s : Store) (bid uid : Nat) (staff : Bool) (today : Int) (b : Booking),
        s.findBooking bid = some b → b.status = .CANCELLED →
        (b.guestId = uid ∨ staff = true) →
        cancel s bid uid staff today = .error .alreadyCancelled)
    ∧ (∀ (s : Store) (bid uid : Nat) (staff : Bool) (today : Int) (b : Booking),
        s.findBooking bid = some b → b.status = .COMPLETED →
        (b.guestId = uid ∨ staff = true) →
        cancel s bid uid staff today = .error .alreadyCompleted)
    ∧ (∀ (s : Store) (bid uid : Nat) (staff : Bool) (today : Int)
        (s' : Store) (b : Booking),
        s.findBooking bid = some b → b.status = .NO_SHOW →
        cancel s bid uid staff today = .ok s' →
        s'.findBooking bid = some { b with status := .CANCELLED }) := by
  refine ⟨?_, ?_, ?_⟩
  · intro s bid uid staff today b hb hst hperm
    have hcond : ¬(b.guestId ≠ uid ∧ staff = false) := by
      intro hc
      rcases hperm with h | h
      · exact hc.1 h
      · simp [h] at hc
    unfold cancel
    rw [hb]
    dsimp only
    rw [if_neg hcond, if_pos hst]
  · intro s bid uid staff today b hb hst hperm
    have hcond : ¬(b.guestId ≠ uid ∧ staff = false) := by
      intro hc
      rcases hperm with h | h
      · exact hc.1 h
      · simp [h] at hc
    unfold cancel
    rw [hb]
    dsimp only
    rw [if_neg hcond, if_neg (by simp [hst]), if_pos hst]
  · intro s bid uid staff today s' b hb hst h
    obtain ⟨b0, hb0, -, -, -, hsave⟩ := cancel_ok h
    rw [hb] at hb0
    obtain rfl := Option.some.inj hb0
    obtain ⟨-, rfl⟩ := bookingSave_ok hsave
    have hid : b.id = bid := findBooking_id hb
    rw [← hid]
    exact findBooking_putBooking _ _

/-- C7 amended witness: cancelling the NO_SHOW demo booking by its guest
succeeds and leaves it CANCELLED. -/
theorem terminal_states_amended_witness :
    noShowStore.findBooking 1 = some { activeBooking with status := .NO_SHOW } ∧
    cancel noShowStore 1 10 false 0 = .ok noShowCancelled ∧
    noShowCancelled.findBooking 1 =
      some { activeBooking with status := .CANCELLED } :=
  ⟨rfl, rfl,
   terminal_states_amended.2.2 noShowStore 1 10 false 0 noShowCancelled
     { activeBooking with status := .NO_SHOW } rfl rfl rfl⟩

/-- C8 counterexample: a successful cancel leaves `cancelled_at` and
`cancellation_reason` untouched (`none` here), so no cancellation
timestamp is recorded. -/
theorem cancel_metadata_counterexample :
    ((cancel demoStore 1 10 false 0).toOption.bind
      fun s => (s.findBooking 1).map
        fun b => (b.status, b.cancelledAt, b.cancellationReason)) =
    some (.CANCELLED, none, none) := rfl

/-- C8 amended: a successful cancel sets the booking's status to
CANCELLED but records neither a cancellation timestamp nor a reason: both
fields keep their previous values. -/
theorem cancel_success_amended :
    ∀ (s : Store) (bid uid : Nat) (staff : Bool) (today : Int)
      (s' : Store) (b : Booking),
      s.findBooking bid = some b →
      cancel s bid uid staff today = .ok s' →
      ∃ b', s'.findBooking bid = some b' ∧ b'.status = .CANCELLED ∧
        b'.cancelledAt = b.cancelledAt ∧
        b'.cancellationReason = b.cancellationReason := by
  intro s bid uid staff today s' b hb h
  obtain ⟨b0, hb0, -, -, -, hsave⟩ := cancel_ok h
  rw [hb] at hb0
  obtain rfl := Option.some.inj hb0
  obtain ⟨-, rfl⟩ := bookingSave_ok hsave
  have hid : b.id = bid := findBooking_id hb
  refine ⟨{ b with status := .CANCELLED }, ?_, rfl, rfl, rfl⟩
  rw [← hid]
  exact findBooking_putBooking _ _

/-- C8 amended witness: guest 10 cancels the demo booking; the stored
booking is CANCELLED with `cancelled_at` and `cancellation_reason` still
unset. -/
theorem cancel_success_amended_witness :
    demoStore.findBooking 1 = some activeBooking ∧
    cancel demoStore 1 10 false 0 = .ok cancelledStore ∧
    (∃ b', cancelledStore.findBooking 1 = some b' ∧ b'.status = .CANCELLED ∧
      b'.cancelledAt = activeBooking.cancelledAt ∧
      b'.cancellationReason = activeBooking.cancellationReason) :=
  ⟨rfl, rfl,
   cancel_success_amended demoStore 1 10 false 0 cancelledStore activeBooking
     rfl rfl⟩

/-- C9: cancelling an otherwise-cancellable booking whose check-in is in
the past fails with the "Date cannot be in the past" validation error,
because persisting the status change re-runs full field validation. -/
theorem cancel_past_checkin_validation :
    ∀ (s : Store) (bid uid : Nat) (staff : Bool) (today : Int) (b : Booking),
      s.findBooking bid = some b → (b.guestId = uid ∨ staff = true) →
      b.status ≠ .CANCELLED → b.status ≠ .COMPLETED →
      b.checkIn < today →
      cancel s bid uid staff today =
        .error (.validation "Date cannot be in the past") := by
  intro s bid uid staff today b hb hperm hnc hncomp hpast
  have hcond : ¬(b.guestId ≠ uid ∧ staff = false) := by
    intro hc
    rcases hperm with h | h
    · exact hc.1 h
    · simp [h] at hc
  have hfc : bookingFullClean s { b with status := .CANCELLED } today =
      .error "Date cannot be in the past" := by
    unfold bookingFullClean
    rw [if_pos hpast]
  have hsave : bookingSave s { b with status := .CANCELLED } today =
      .error "Date cannot be in the past" := by
    unfold bookingSave
    rw [hfc]
  unfold cancel
  rw [hb]
  dsimp only
  rw [if_neg hcond, if_neg hnc, if_neg hncomp, hsave]

/-- C9 witness: the CONFIRMED booking with check-in day 5 cannot be
cancelled on day 8 — the save re-validation rejects the past date. -/
theorem cancel_past_checkin_validation_witness :
    pastStore.findBooking 1 = some { activeBooking with status := .CONFIRMED } ∧
    ((5 : Int) < 8) ∧
    cancel pastStore 1 10 false 8 =
      .error (.validation "Date cannot be in the past") :=
  ⟨rfl, by decide,
   cancel_past_checkin_validation pastStore 1 10 false 8
     { activeBooking with status := .CONFIRMED } rfl (Or.inl rfl)
     (by decide) (by decide) (by decide)⟩

/-- C10: booking validation rejects any stay longer than 30 nights
(requested with a field-stage-valid guest count) with the maximum-stay
error — a limit the spec does not state. -/
theorem max_stay_limit :
    ∀ (s : Store) (l : Listing) (today checkIn checkOut : Int)
      (lid guests : Nat) (instancePk : Option Nat),
      s.findListing lid = some l → today ≤ checkIn → 1 ≤ guests →
      checkOut - checkIn > 30 →
      bookingSerializerValidate s today checkIn checkOut lid guests instancePk =
        .error "Maximum stay is 30 nights." := by
  intro s l today checkIn checkOut lid guests instancePk hl h1 hg h2
  unfold bookingSerializerValidate
  rw [hl]
  dsimp only
  rw [if_neg (by omega), if_neg (by omega), if_neg (by omega),
    if_neg (by omega), if_neg (by omega), if_neg (by omega),
    if_pos (by omega)]

/-- C10 witness: a 39-night stay request (day 1 to day 40) on listing 1
is rejected with the maximum-stay error. -/
theorem max_stay_limit_witness :
    demoStore.findListing 1 = some demoListing ∧
    ((0 : Int) ≤ 1 ∧ 1 ≤ 2 ∧ (40 : Int) - 1 > 30) ∧
    bookingSerializerValidate demoStore 0 1 40 1 2 none =
      .error "Maximum stay is 30 nights." :=
  ⟨rfl, ⟨by decide, by decide, by decide⟩,
   max_stay_limit demoStore demoListing 0 1 40 1 2 none rfl (by decide)
     (by decide) (by decide)⟩

end AlxTravel
